import Mathlib

/-!
Verification development for the Telegram announcement-funnel repository.

The Python sources (`config.py`, `utils.py`, `bot_funnel.py`) are shallowly
embedded below: pure helpers become Lean functions, the delivery loop of
`send_funnel` becomes explicit state passing over a `LoopState`, the global
random generator becomes an explicit `Rng` value threaded through the loop,
and external effects (file system, template engine, bot transport) become
explicit oracle parameters.
-/

namespace Funnel

/-- A loosely-typed YAML/JSON-like value, used for the loosely-typed blocks of
a branding profile (`brand`, `colors`, `fonts`, ...), mirroring the Python
dicts. Decimal literals of the source (for example `line_height: 1.6`) are
represented textually since floats are not modelled. -/
inductive JVal where
  | null
  | bool (b : Bool)
  | num (n : Int)
  | str (s : String)
  | arr (xs : List JVal)
  | dict (entries : List (String × JVal))
deriving Repr

/-- First-match association-list lookup, the model of Python `dict.get`. -/
def alistGet {α : Type} (m : List (String × α)) (k : String) : Option α :=
  (m.find? (fun p => p.1 == k)).map (fun p => p.2)

/-- `d.get(k)` on a `JVal` dict; `none` on non-dicts or missing keys. -/
def jGet (v : JVal) (k : String) : Option JVal :=
  match v with
  | .dict entries => alistGet entries k
  | _ => none

/-- Python `pat in s` substring containment on strings. -/
def strContains (s pat : String) : Bool :=
  decide (List.IsInfix pat.data s.data)

-- ── config.py: module-level constants ──────────────────────────────────────

/-- `STAGES = ['interest', 'solution', 'deadline']` (config.py). -/
def STAGES : List String := ["interest", "solution", "deadline"]

/-- `VARIANTS = ['a', 'b', 'c']` (config.py). -/
def VARIANTS : List String := ["a", "b", "c"]

/-- `SEND_DELAY = 1` (config.py). -/
def SEND_DELAY : Nat := 1

-- ── Branding profile data model ────────────────────────────────────────────

/-- The `image` section of a profile: chosen format key, a map from format
name to (width, height), quality and dpi. -/
structure ImageConfig where
  format : Option String := none
  sizes : List (String × (Int × Int)) := []
  quality : Option Int := none
  dpi : Option Int := none
deriving Repr, DecidableEq

/-- The `cta` section of a profile: button style, icon glyph, per-stage
button texts. -/
structure CtaConfig where
  style : Option String := none
  icon : Option String := none
  shadow : Option Bool := none
  texts : List (String × String) := []
deriving Repr, DecidableEq

/-- The `tone` section of a profile: style key, per-style greeting templates
and call-to-action phrasings. -/
structure ToneConfig where
  style : Option String := none
  greetings : List (String × String) := []
  calls_to_action : List (String × String) := []
deriving Repr, DecidableEq

/-- A branding profile: a record of optional sections, mirroring the Python
profile dict (`profile.get(section, {})` chains become `Option` defaults).
Sections whose internal structure no claim depends on stay loosely typed as
`JVal` dicts. -/
structure Profile where
  brand : Option JVal := none
  colors : Option JVal := none
  fonts : Option JVal := none
  image : Option ImageConfig := none
  card : Option JVal := none
  cta : Option CtaConfig := none
  tone : Option ToneConfig := none
  social : Option JVal := none
  content : Option JVal := none
  banner : Option JVal := none
  icons : Option JVal := none
deriving Repr

-- ── config.py: get_default_profile ─────────────────────────────────────────

/-- `get_default_profile()` (config.py): the hard-coded wellness profile,
fully populated, returned when YAML is unavailable or profile parsing
fails. -/
def get_default_profile : Profile :=
  { brand := some (.dict
      [("name", .str "Poznay Sebya"),
       ("logo", .str "POZNAY SEBYA / KNOW YOURSELF"),
       ("tagline", .str "Путь к себе начинается здесь"),
       ("website", .str "https://poznaysebya.com"),
       ("telegram", .str "@poznaysebya")])
  , colors := some (.dict
      [("primary", .str "#4A4F46"),
       ("secondary", .str "#A38DA2"),
       ("accent", .str "#8CA29B"),
       ("background", .str "#F5F3EF"),
       ("background_alt", .str "#E3D6C4"),
       ("text_primary", .str "#4A4F46"),
       ("text_secondary", .str "#6B7064"),
       ("text_light", .str "#FFFFFF"),
       ("button_bg", .str "#8CA29B"),
       ("button_text", .str "#FFFFFF"),
       ("button_hover", .str "#7A9189"),
       ("border", .str "#D4CFC7"),
       ("shadow", .str "rgba(74, 79, 70, 0.1)")])
  , fonts := some (.dict
      [("heading", .str "Cormorant Garamond"),
       ("heading_weight", .str "600"),
       ("body", .str "Inter"),
       ("body_weight", .str "400"),
       ("size_title", .num 36),
       ("size_subtitle", .num 24),
       ("size_body", .num 18),
       ("size_small", .num 14),
       ("size_button", .num 16),
       ("line_height", .str "1.6")])
  , image := some
      { format := some "wide"
      , sizes :=
          [("square", (800, 800)),
           ("wide", (1200, 630)),
           ("story", (1080, 1920)),
           ("compact", (800, 600))]
      , quality := some 95
      , dpi := some 144 }
  , card := some (.dict
      [("border_radius", .num 16),
       ("padding", .num 40),
       ("shadow", .str "soft"),
       ("border_width", .num 0),
       ("background_type", .str "gradient"),
       ("gradient_direction", .str "to bottom right"),
       ("gradient_colors", .arr [.str "#F5F3EF", .str "#E3D6C4"])])
  , cta := some
      { style := some "rounded"
      , icon := some "→"
      , shadow := some true
      , texts :=
          [("interest", "Узнать больше"),
           ("solution", "Получить программу"),
           ("deadline", "Записаться сейчас")] }
  , tone := some
      { style := some "friendly"
      , greetings :=
          [("formal", "Уважаемый(-ая) \x7b\x7b name \x7d\x7d,"),
           ("friendly", "\x7b\x7b name \x7d\x7d, добрый день!"),
           ("dynamic", "\x7b\x7b name \x7d\x7d, это ваш момент!")]
      , calls_to_action :=
          [("formal", "Будем рады видеть Вас на программе"),
           ("friendly", "Присоединяйтесь к нам в путешествие к себе"),
           ("dynamic", "Действуйте прямо сейчас!")] }
  , social := some (.dict
      [("telegram", .str "@poznaysebya"),
       ("instagram", .str "@poznay.sebya"),
       ("website", .str "https://poznaysebya.com"),
       ("email", .str "hello@poznaysebya.com"),
       ("phone", .str "+7 (999) 123-45-67")])
  , content := some (.dict
      [("interest", .dict
          [("headline", .str "Откройте глубину в себе"),
           ("subheadline", .str "Путь самопознания начинается с первого шага"),
           ("features", .arr
              [.str "Персональный подход", .str "Безопасное пространство",
               .str "Глубинные инсайты"])]),
       ("solution", .dict
          [("headline", .str "Ваша программа трансформации"),
           ("subheadline", .str "Индивидуальные сессии с экспертом"),
           ("features", .arr
              [.str "5-10 персональных встреч", .str "PDF-отчёты с инсайтами",
               .str "Поддержка между сессиями"])]),
       ("deadline", .dict
          [("headline", .str "Осталось ограниченное число мест"),
           ("subheadline", .str "Начните свой путь уже сегодня"),
           ("urgency", .str "Только 10 мест доступно!"),
           ("price_range", .str "25 000 — 75 000 ₽")])])
  , banner := none
  , icons := none }

-- ── config.py: get_image_size ──────────────────────────────────────────────

/-- The built-in `default_sizes` table inside `get_image_size` (config.py). -/
def default_sizes : List (String × (Int × Int)) :=
  [("square", (800, 800)),
   ("wide", (1200, 900)),
   ("story", (1080, 1920)),
   ("compact", (800, 600))]

/-- `get_image_size(profile)` (config.py): size of the chosen image format,
from the profile size map, else the built-in default table, else (800, 600). -/
def get_image_size (profile : Profile) : Int × Int :=
  let format_name := (profile.image.bind ImageConfig.format).getD "wide"
  let sizes := (profile.image.map ImageConfig.sizes).getD []
  (alistGet sizes format_name).getD ((alistGet default_sizes format_name).getD (800, 600))

-- ── config.py: get_greeting ────────────────────────────────────────────────

/-- `get_greeting(profile, name)` (config.py): the greeting template of the
profile tone style, with the placeholder replaced by the name. -/
def get_greeting (profile : Profile) (name : String) : String :=
  let style := (profile.tone.bind ToneConfig.style).getD "friendly"
  let greetings := (profile.tone.map ToneConfig.greetings).getD []
  let template := (alistGet greetings style).getD "\x7b\x7b name \x7d\x7d, добрый день!"
  template.replace "\x7b\x7b name \x7d\x7d" name

-- ── config.py: get_cta_text ────────────────────────────────────────────────

/-- `get_cta_text(profile, stage)` (config.py): the per-stage button text;
returned as-is when it contains an arrow or ends in an exclamation or
question mark, otherwise the configured icon is appended when absent. -/
def get_cta_text (profile : Profile) (stage : String) : String :=
  let texts := (profile.cta.map CtaConfig.texts).getD []
  let text := (alistGet texts stage).getD "Узнать больше →"
  if strContains text "→" || strContains text "←" || text.endsWith "!" || text.endsWith "?" then
    text
  else
    let icon := (profile.cta.bind CtaConfig.icon).getD ""
    if icon ≠ "" && !(strContains text icon) then text ++ " " ++ icon else text

-- ── config.py: load_profile ────────────────────────────────────────────────

/-- The external environment of `load_profile`: whether PyYAML imports, which
paths exist, and what parsing a file yields (`none` models an exception while
opening or parsing). -/
structure ProfileFS where
  yamlAvailable : Bool
  pathOnDisk : String → Bool
  parse : String → Option Profile

/-- Path resolution inside `load_profile` (config.py): an argument ending in
a YAML extension is a literal path, otherwise a name under the profiles
directory. -/
def resolve_profile_path (profile_name : String) : String :=
  if profile_name.endsWith ".yaml" || profile_name.endsWith ".yml" then profile_name
  else "profiles/" ++ profile_name ++ ".yaml"

/-- `load_profile(profile_name)` (config.py), returning the profile together
with the warnings printed. A missing resolved path substitutes the wellness
profile path with a warning; a failed open or parse yields the hard-coded
default profile. -/
def load_profile (fs : ProfileFS) (profile_name : String) : Profile × List String :=
  if fs.yamlAvailable = false then
    (get_default_profile, ["PyYAML не установлен. Используем профиль по умолчанию."])
  else
    let profile_path := resolve_profile_path profile_name
    let pw : String × List String :=
      if fs.pathOnDisk profile_path then (profile_path, [])
      else ("profiles/wellness.yaml",
            ["Профиль " ++ profile_name ++ " не найден. Используем wellness."])
    match fs.parse pw.1 with
    | some profile => (profile, pw.2)
    | none => (get_default_profile, pw.2 ++ ["Ошибка загрузки профиля"])

-- ── utils.py: _resolve_asset_paths ─────────────────────────────────────────

mutual

/-- `_resolve_asset_paths(data, base_dir)` (utils.py): recursively rewrites,
inside a dict, string values starting with the asset-folder prefix into
absolute `file://` references when the file exists; non-dict top-level values
pass through unchanged, and recursion descends only into nested dicts. -/
def resolveAssetPathsVal (fsEx : String → Bool) (baseDir : String) : JVal → JVal
  | .dict entries => .dict (resolveAssetPathsEntries fsEx baseDir entries)
  | v => v

/-- Entry-wise worker of `_resolve_asset_paths` over the items of a dict. -/
def resolveAssetPathsEntries (fsEx : String → Bool) (baseDir : String) :
    List (String × JVal) → List (String × JVal)
  | [] => []
  | (k, v) :: rest =>
    let v2 : JVal :=
      match v with
      | .dict es => .dict (resolveAssetPathsEntries fsEx baseDir es)
      | .str s =>
        if s.startsWith "assets/" then
          if fsEx (baseDir ++ "/" ++ s) then .str ("file://" ++ baseDir ++ "/" ++ s)
          else .str s
        else .str s
      | other => other
    (k, v2) :: resolveAssetPathsEntries fsEx baseDir rest

end

-- ── utils.py: render_html ──────────────────────────────────────────────────

/-- The substitution context `render_data` built by `render_html` (utils.py):
recipient fields, profile blocks (brand with resolved asset paths, content
narrowed to the current stage), computed greeting and call-to-action, stage
and variant. -/
structure RenderData where
  user : List (String × String)
  brand : JVal
  colors : JVal
  fonts : JVal
  social : JVal
  card : JVal
  cta : Option CtaConfig
  image : Option ImageConfig
  banner : JVal
  icons : JVal
  content : JVal
  tone : Option ToneConfig
  greeting : String
  cta_text : String
  stage : String
  variant : String

/-- The external environment of `render_html`: the template files present in
the templates directory, the asset file existence test, the base directory,
and the (deterministic, external) template engine applied to a template name
and a substitution context. -/
structure RenderEnv where
  templates : List String
  fsEx : String → Bool
  baseDir : String
  engine : String → RenderData → String

/-- `render_html(stage, variant, user_data, profile)` (utils.py): resolves
the template named `stage_variant.html`, builds the substitution context and
applies the template engine; a missing template surfaces as a wrapped
rendering error naming stage and variant. -/
def render_html (env : RenderEnv) (stage variant : String)
    (user_data : List (String × String)) (profile : Option Profile) :
    Except String String :=
  let p := profile.getD get_default_profile
  let template_name := stage ++ "_" ++ variant ++ ".html"
  if template_name ∈ env.templates then
    let greeting := get_greeting p ((alistGet user_data "name").getD "User")
    let cta_text := get_cta_text p stage
    let brand_data := resolveAssetPathsVal env.fsEx env.baseDir (p.brand.getD (.dict []))
    let render_data : RenderData :=
      { user := user_data
      , brand := brand_data
      , colors := p.colors.getD (.dict [])
      , fonts := p.fonts.getD (.dict [])
      , social := p.social.getD (.dict [])
      , card := p.card.getD (.dict [])
      , cta := p.cta
      , image := p.image
      , banner := p.banner.getD (.dict [])
      , icons := p.icons.getD (.dict [])
      , content := (jGet (p.content.getD (.dict [])) stage).getD (.dict [])
      , tone := p.tone
      , greeting := greeting
      , cta_text := cta_text
      , stage := stage
      , variant := variant }
    .ok (env.engine template_name render_data)
  else
    .error ("Ошибка при рендеринге HTML " ++ stage ++ "_" ++ variant ++
            ": Шаблон " ++ template_name ++ " не найден")

-- ── utils.py: load_users ───────────────────────────────────────────────────

/-- A spreadsheet row: association list from column name to cell text. -/
abbrev Row := List (String × String)

/-- The parsed CSV table: column names plus rows. -/
structure DataFrame where
  columns : List String
  rows : List Row
deriving Repr, DecidableEq

/-- Read a cell: Python `row[col]` / `row.get(col)`. -/
def getCell (r : Row) (k : String) : Option String :=
  alistGet r k

/-- Write a cell, adding the column to the row when absent: the model of
pandas column assignment at row level. -/
def setCell (r : Row) (k v : String) : Row :=
  if (alistGet r k).isSome then
    r.map (fun p => if p.1 == k then (k, v) else p)
  else
    r ++ [(k, v)]

/-- `required_fields` of `load_users` (utils.py). -/
def required_fields : List String := ["name", "role", "company", "telegram_id"]

/-- Fatal outcomes of the recipient-loading phase (utils.py `load_users`
together with the fatal paths of `main` in bot_funnel.py). -/
inductive LoadError where
  | fileNotFound (msg : String)
  | missingFields (fields : List String)
  | wrapped (msg : String)
  | emptyTable
deriving Repr, DecidableEq

/-- Does this row carry a valid variant code? (`df['variant'].isin(VARIANTS)`
at row level; a missing cell models NaN and is invalid.) -/
def rowVariantValid (r : Row) : Bool :=
  match getCell r "variant" with
  | some v => VARIANTS.contains v
  | none => false

/-- Coerce an invalid variant cell to the first code
(`df.loc[~df['variant'].isin(VARIANTS), 'variant'] = 'a'` at row level). -/
def coerceVariant (r : Row) : Row :=
  if rowVariantValid r then r else setCell r "variant" "a"

/-- Digits-to-number helper of the integer conversion model. -/
def parseNatDigits (ds : List Char) : Option Nat :=
  if ds.isEmpty then none
  else if ds.all Char.isDigit then
    some (ds.foldl (fun acc c => acc * 10 + (c.toNat - 48)) 0)
  else none

/-- Executable decimal integer parser (optional minus sign, then digits):
the convertibility test of the `astype(int)` conversion. -/
def parseInt (s : String) : Option Int :=
  match s.data with
  | '-' :: rest => (parseNatDigits rest).map (fun n => -(n : Int))
  | ds => (parseNatDigits ds).map (fun n => (n : Int))

/-- `df['telegram_id'].astype(int)` (utils.py): every cell must convert to an
integer, else the load raises; cells are normalized to the integer text. -/
def convertTelegramIds (df : DataFrame) : Option DataFrame :=
  if df.rows.all (fun r => ((getCell r "telegram_id").bind parseInt).isSome) then
    some { df with rows := df.rows.map (fun r =>
      setCell r "telegram_id" (toString (((getCell r "telegram_id").bind parseInt).getD 0))) }
  else
    none

/-- `load_users(csv_path)` (utils.py): `none` input models a missing file.
Checks required columns, defaults an absent variant column to the first code
with a warning, converts identifiers to integers, and coerces invalid
variant codes to the first code with a warning naming the offending values.
Returns the table with the warnings printed. -/
def load_users (csv : Option DataFrame) : Except LoadError (DataFrame × List String) :=
  match csv with
  | none => .error (.fileNotFound "Файл не найден")
  | some df0 =>
    let missing_fields := required_fields.filter (fun f => !(df0.columns.contains f))
    if missing_fields ≠ [] then
      .error (.missingFields missing_fields)
    else
      let dw : DataFrame × List String :=
        if df0.columns.contains "variant" then (df0, [])
        else ({ columns := df0.columns ++ ["variant"]
              , rows := df0.rows.map (fun r => setCell r "variant" "a") },
              ["Поле variant отсутствует, установлено значение a по умолчанию"])
      match convertTelegramIds dw.1 with
      | none => .error (.wrapped "Ошибка при загрузке CSV: invalid telegram_id")
      | some df2 =>
        let invalid := df2.rows.filter (fun r => !(rowVariantValid r))
        if invalid ≠ [] then
          .ok ({ df2 with rows := df2.rows.map coerceVariant },
               dw.2 ++ ["Найдены некорректные варианты: " ++
                        toString (invalid.map (fun r => (getCell r "variant").getD ""))])
        else
          .ok (df2, dw.2)

-- ── utils.py: get_random_variant and html_to_png file naming ───────────────

/-- The process-wide random generator, made explicit: an unbounded stream of
three-way choices plus the current position. -/
structure Rng where
  seq : Nat → Fin 3
  pos : Nat

/-- `get_random_variant()` (utils.py): `random.choice(VARIANTS)`, consuming
one position of the explicit generator. -/
def get_random_variant (r : Rng) : String × Rng :=
  (VARIANTS.get ⟨(r.seq r.pos).val, (r.seq r.pos).isLt⟩, { r with pos := r.pos + 1 })

/-- The PNG file name written by `html_to_png(html_str, stage, user_id, ...)`
(utils.py): `f⟨stage⟩_⟨user_id⟩.png` for the label passed as its `stage`
argument; both the primary renderer and the Pillow fallback use it. -/
def png_file_name (label : String) (user_id : Int) : String :=
  label ++ "_" ++ toString user_id ++ ".png"

-- ── bot_funnel.py: send_funnel ─────────────────────────────────────────────

/-- One recipient as consumed by `send_funnel` (a row of the loaded table);
`variant` is `none` when the row has no variant cell (`row.get('variant',
'a')` then defaults it). -/
structure FunnelUser where
  name : String
  role : String
  company : String
  telegram_id : Int
  variant : Option String
deriving Repr, DecidableEq

/-- Outcome of the `bot.send_photo` transmission call for one pair:
`badRequest` and `forbidden` model `TelegramBadRequest` and
`TelegramForbiddenError`, `otherError` any other exception. -/
inductive SendOutcome where
  | success
  | badRequest
  | forbidden
  | otherError
deriving Repr, DecidableEq

/-- The external effects of one run of the delivery loop, as oracles indexed
by (recipient position, stage position): whether `render_html` succeeds,
whether `html_to_png` produces a file, and what the transmission returns. -/
structure Env where
  renderOk : Nat → Nat → Bool
  pngOk : Nat → Nat → Bool
  send : Nat → Nat → SendOutcome

/-- Ghost record of what happened for one (recipient, stage) pair. -/
structure PairLog where
  uIdx : Nat
  sIdx : Nat
  chat_id : Int
  stage : String
  variant : String
  pngMade : Bool
  sendRes : Option SendOutcome
  counted : Bool
deriving Repr, DecidableEq

/-- The mutable state of `send_funnel` (bot_funnel.py): the `processed`
counter, the per-variant tallies of `variant_stats`, the PNG files written,
the explicit random generator, plus a ghost log of all pair outcomes. -/
structure LoopState where
  processed : Nat
  statsA : Nat
  statsB : Nat
  statsC : Nat
  pngs : List String
  logs : List PairLog
  rng : Rng

/-- `variant_stats[variant] += 1` (bot_funnel.py line 112): `none` models the
`KeyError` raised when the variant is not one of the three keys. -/
def bumpStats (st : LoopState) (v : String) : Option LoopState :=
  if v = "a" then some { st with statsA := st.statsA + 1 }
  else if v = "b" then some { st with statsB := st.statsB + 1 }
  else if v = "c" then some { st with statsC := st.statsC + 1 }
  else none

/-- The body of the inner stage loop of `send_funnel` for one (recipient,
stage) pair. Rendering or rasterization failure hits the outer `except` and
skips the pair; a transmission failure is caught by the inner `except` blocks
and execution still reaches the counter updates. -/
def pairStep (env : Env) (send_real : Bool) (uIdx sIdx : Nat) (chatId : Int)
    (variant stage : String) (st : LoopState) : LoopState :=
  if env.renderOk uIdx sIdx && env.pngOk uIdx sIdx then
    let fname := png_file_name (stage ++ "_" ++ variant) chatId
    let st1 := { st with pngs := st.pngs ++ [fname] }
    let sendRes : Option SendOutcome :=
      if send_real then some (env.send uIdx sIdx) else none
    match bumpStats st1 variant with
    | some st2 =>
      { st2 with
        processed := st2.processed + 1
        logs := st2.logs ++
          [{ uIdx := uIdx, sIdx := sIdx, chat_id := chatId, stage := stage
           , variant := variant, pngMade := true, sendRes := sendRes
           , counted := true }] }
    | none =>
      { st1 with
        logs := st1.logs ++
          [{ uIdx := uIdx, sIdx := sIdx, chat_id := chatId, stage := stage
           , variant := variant, pngMade := true, sendRes := sendRes
           , counted := false }] }
  else
    { st with
      logs := st.logs ++
        [{ uIdx := uIdx, sIdx := sIdx, chat_id := chatId, stage := stage
         , variant := variant, pngMade := false, sendRes := none
         , counted := false }] }

/-- The inner `for stage in STAGES` loop of `send_funnel`, over the remaining
stages paired with their positions. -/
def runStages (env : Env) (send_real : Bool) (uIdx : Nat) (chatId : Int)
    (variant : String) : List (Nat × String) → LoopState → LoopState
  | [], st => st
  | (sIdx, stage) :: rest, st =>
    runStages env send_real uIdx chatId variant rest
      (pairStep env send_real uIdx sIdx chatId variant stage st)

/-- The variant determination at the top of the recipient loop
(bot_funnel.py lines 64-68): one draw per recipient in random mode, the
stored variant (default first code) in fixed mode. -/
inductive VariantMode where
  | fixed
  | random
deriving Repr, DecidableEq

/-- Compute the recipient variant and the successor generator state. -/
def pickVariant (mode : VariantMode) (u : FunnelUser) (rng : Rng) : String × Rng :=
  match mode with
  | .random => get_random_variant rng
  | .fixed => (u.variant.getD "a", rng)

/-- The outer `for _, row in users_df.iterrows()` loop of `send_funnel`,
with the recipient position threaded explicitly. -/
def runUsers (env : Env) (send_real : Bool) (mode : VariantMode) :
    List FunnelUser → Nat → LoopState → LoopState
  | [], _, st => st
  | u :: rest, i, st =>
    let vr := pickVariant mode u st.rng
    runUsers env send_real mode rest (i + 1)
      (runStages env send_real i u.telegram_id vr.1 STAGES.enum
        { st with rng := vr.2 })

/-- The initial loop state: zero counters, no files, fresh generator. -/
def initState (rng : Rng) : LoopState :=
  { processed := 0, statsA := 0, statsB := 0, statsC := 0
  , pngs := [], logs := [], rng := rng }

/-- `send_funnel(bot, users_df, output_dir, send_real, variant_mode,
profile)` (bot_funnel.py): the whole delivery loop as a state transformer. -/
def send_funnel (env : Env) (users : List FunnelUser) (send_real : Bool)
    (mode : VariantMode) (rng : Rng) : LoopState :=
  runUsers env send_real mode users 0 (initState rng)

-- ── bot_funnel.py: main (the fatal startup paths) ──────────────────────────

/-- Convert a post-load table row to the recipient record `send_funnel`
reads from it. -/
def rowToUser (r : Row) : FunnelUser :=
  { name := (getCell r "name").getD ""
  , role := (getCell r "role").getD ""
  , company := (getCell r "company").getD ""
  , telegram_id := ((getCell r "telegram_id").bind parseInt).getD 0
  , variant := getCell r "variant" }

/-- The run skeleton of `main()` (bot_funnel.py): load recipients, abort with
a non-zero exit on a load failure or an empty table (so no delivery-loop
output exists), otherwise run `send_funnel`. -/
def mainRun (csv : Option DataFrame) (env : Env) (send_real : Bool)
    (mode : VariantMode) (rng : Rng) : Except LoadError LoopState :=
  match load_users csv with
  | .error e => .error e
  | .ok (df, _) =>
    if df.rows.isEmpty then .error .emptyTable
    else .ok (send_funnel env (df.rows.map rowToUser) send_real mode rng)

-- ── Explicit-randomness view of the render engine ──────────────────────────

/-- `render_html` with the process random generator threaded explicitly: the
source function makes no call into the random module, so its embedding
neither reads nor advances the generator. -/
def render_htmlR (env : RenderEnv) (stage variant : String)
    (user_data : List (String × String)) (profile : Option Profile)
    (rng : Rng) : (Except String String) × Rng :=
  (render_html env stage variant user_data profile, rng)

-- ── Concrete fixtures used by witnesses and counterexamples ────────────────

/-- An environment where every external call succeeds. -/
def envAllOk : Env :=
  { renderOk := fun _ _ => true
  , pngOk := fun _ _ => true
  , send := fun _ _ => .success }

/-- An environment where the transmission for the second stage of the first
recipient reports that the recipient blocked the bot. -/
def envOneForbidden : Env :=
  { renderOk := fun _ _ => true
  , pngOk := fun _ _ => true
  , send := fun u s => if u == 0 && s == 1 then .forbidden else .success }

/-- A generator whose successive draws cycle a, b, c, a, ... -/
def rngCycle : Rng :=
  { seq := fun n => Fin.ofNat n, pos := 0 }

/-- The recipient of end-to-end scenario A of the specification. -/
def userAnna : FunnelUser :=
  { name := "Anna", role := "CEO", company := "Acme"
  , telegram_id := 555, variant := some "b" }

/-- A one-row recipient table with a valid variant column. -/
def dfAnna : DataFrame :=
  { columns := ["name", "role", "company", "telegram_id", "variant"]
  , rows := [[("name", "Anna"), ("role", "CEO"), ("company", "Acme"),
              ("telegram_id", "555"), ("variant", "b")]] }

/-- A recipient table whose variant column is absent. -/
def dfNoVariant : DataFrame :=
  { columns := ["name", "role", "company", "telegram_id"]
  , rows := [[("name", "Anna"), ("role", "CEO"), ("company", "Acme"),
              ("telegram_id", "555")]] }

/-- A recipient table with an out-of-set variant value. -/
def dfInvalidVariant : DataFrame :=
  { columns := ["name", "role", "company", "telegram_id", "variant"]
  , rows := [[("name", "Anna"), ("role", "CEO"), ("company", "Acme"),
              ("telegram_id", "555"), ("variant", "z")]] }

/-- A recipient table missing the `telegram_id` column (end-to-end
scenario B of the specification). -/
def dfNoTelegramId : DataFrame :=
  { columns := ["name", "role", "company"]
  , rows := [[("name", "Anna"), ("role", "CEO"), ("company", "Acme")]] }

deriving instance DecidableEq for Except

/-- A profile-store state where no profile file exists and every open or
parse attempt fails. -/
def fsAllMissing : ProfileFS :=
  { yamlAvailable := true
  , pathOnDisk := fun _ => false
  , parse := fun _ => none }

-- ═══════════════════════════════════════════════════════════════════════════
-- Lemmas
-- ═══════════════════════════════════════════════════════════════════════════

lemma alistGet_nil {α : Type} (k : String) : alistGet ([] : List (String × α)) k = none := by
  simp [alistGet]

lemma alistGet_cons {α : Type} (p : String × α) (m : List (String × α)) (k : String) :
    alistGet (p :: m) k = if p.1 == k then some p.2 else alistGet m k := by
  by_cases h : (p.1 == k) = true
  · simp [alistGet, List.find?_cons_of_pos, h]
  · simp only [Bool.not_eq_true] at h
    simp [alistGet, List.find?_cons_of_neg, h]

lemma alistGet_mem {α : Type} {m : List (String × α)} {k : String} {v : α}
    (h : alistGet m k = some v) : (k, v) ∈ m := by
  induction m with
  | nil => simp [alistGet] at h
  | cons p tl ih =>
    rw [alistGet_cons] at h
    by_cases hp : (p.1 == k) = true
    · simp [hp] at h
      have hk : p.1 = k := by simpa using hp
      have : p = (k, v) := by
        cases p
        simp_all
      simp [this]
    · simp [hp] at h
      exact List.mem_cons_of_mem _ (ih h)

lemma default_sizes_pos {k : String} {wh : Int × Int}
    (h : alistGet default_sizes k = some wh) : 0 < wh.1 ∧ 0 < wh.2 := by
  have := alistGet_mem h
  simp [default_sizes] at this
  rcases this with ⟨_, h2⟩ | ⟨_, h2⟩ | ⟨_, h2⟩ | ⟨_, h2⟩ <;> rw [h2] <;> exact ⟨by decide, by decide⟩

lemma alistGet_map_set (r : Row) (k v : String) :
    alistGet (r.map (fun p => if p.1 == k then (k, v) else p)) k =
    (alistGet r k).map (fun _ => v) := by
  induction r with
  | nil => simp [alistGet]
  | cons p tl ih =>
    simp only [beq_iff_eq] at ih
    by_cases h : p.1 = k
    · simp [List.map_cons, alistGet_cons, h]
    · simp [List.map_cons, alistGet_cons, h, ih]

lemma alistGet_map_set_ne (r : Row) (k k' v : String) (hne : k' ≠ k) :
    alistGet (r.map (fun p => if p.1 == k then (k, v) else p)) k' = alistGet r k' := by
  induction r with
  | nil => simp
  | cons p tl ih =>
    simp only [beq_iff_eq] at ih
    by_cases h : p.1 = k
    · have hkk : ¬(k = k') := fun hh => hne hh.symm
      have hpk2 : ¬(p.1 = k') := by
        rw [h]
        exact hkk
      simp [List.map_cons, alistGet_cons, h, hkk, hpk2, ih]
    · simp [List.map_cons, alistGet_cons, h, ih]

lemma alistGet_append_of_none {r₁ : Row} {k : String} (r₂ : Row)
    (h : alistGet r₁ k = none) : alistGet (r₁ ++ r₂) k = alistGet r₂ k := by
  induction r₁ with
  | nil => simp
  | cons p tl ih =>
    rw [alistGet_cons] at h
    by_cases hp : p.1 = k
    · simp [hp] at h
    · simp [hp] at h
      simp [List.cons_append, alistGet_cons, hp, ih h]

lemma alistGet_append_of_some {r₁ : Row} {k v : String} (r₂ : Row)
    (h : alistGet r₁ k = some v) : alistGet (r₁ ++ r₂) k = some v := by
  induction r₁ with
  | nil => simp [alistGet] at h
  | cons p tl ih =>
    rw [alistGet_cons] at h
    by_cases hp : p.1 = k
    · simp [hp] at h
      simp [List.cons_append, alistGet_cons, hp, h]
    · simp [hp] at h
      simp [List.cons_append, alistGet_cons, hp, ih h]

lemma getCell_setCell_self (r : Row) (k v : String) :
    getCell (setCell r k v) k = some v := by
  unfold getCell setCell
  split
  case isTrue h =>
    rw [alistGet_map_set]
    obtain ⟨w, hw⟩ := Option.isSome_iff_exists.mp h
    rw [hw]
    rfl
  case isFalse h =>
    have hn : alistGet r k = none := by
      cases hc : alistGet r k with
      | none => rfl
      | some w => rw [hc] at h; simp at h
    rw [alistGet_append_of_none _ hn, alistGet_cons]
    simp

lemma getCell_setCell_ne (r : Row) (k k' v : String) (hne : k' ≠ k) :
    getCell (setCell r k v) k' = getCell r k' := by
  unfold getCell setCell
  split
  · rw [alistGet_map_set_ne _ _ _ _ hne]
  · cases hc : alistGet r k' with
    | none =>
      rw [alistGet_append_of_none _ hc, alistGet_cons]
      have : (k == k') = false := by
        simp only [beq_eq_false_iff_ne]
        exact fun hh => hne hh.symm
      simp [this, alistGet]
    | some w => rw [alistGet_append_of_some _ hc]

lemma rowVariantValid_elim {r : Row} (h : rowVariantValid r = true) :
    ∃ v, getCell r "variant" = some v ∧ v ∈ VARIANTS := by
  unfold rowVariantValid at h
  cases hg : getCell r "variant" with
  | none => rw [hg] at h; simp at h
  | some v =>
    rw [hg] at h
    exact ⟨v, rfl, by simpa using h⟩

lemma coerceVariant_valid (r : Row) : rowVariantValid (coerceVariant r) = true := by
  unfold coerceVariant
  split
  case isTrue h => exact h
  case isFalse h =>
    simp [rowVariantValid, getCell_setCell_self, VARIANTS]

lemma convertTelegramIds_rows {df df2 : DataFrame}
    (h : convertTelegramIds df = some df2) :
    df2.columns = df.columns ∧
    df2.rows = df.rows.map (fun r =>
      setCell r "telegram_id"
        (toString (((getCell r "telegram_id").bind parseInt).getD 0))) := by
  unfold convertTelegramIds at h
  split at h
  · simp only [Option.some.injEq] at h
    subst h
    exact ⟨rfl, rfl⟩
  · simp at h

/-- The planned variant of the recipient at position `k`: the stored variant
in fixed mode, the `k`-th generator draw in random mode. -/
def plannedVariant (mode : VariantMode) (rng : Rng) (users : List FunnelUser)
    (k : Nat) (hk : k < users.length) : String :=
  match mode with
  | .fixed => (users.get ⟨k, hk⟩).variant.getD "a"
  | .random =>
    VARIANTS.get ⟨(rng.seq (rng.pos + k)).val, (rng.seq (rng.pos + k)).isLt⟩

lemma pairStep_shape (env : Env) (sr : Bool) (u s : Nat) (c : Int) (v g : String)
    (st : LoopState) :
    ∃ (pn : List String) (dp da db dc : Nat) (pm ct : Bool) (so : Option SendOutcome),
      pairStep env sr u s c v g st =
        { processed := st.processed + dp
        , statsA := st.statsA + da
        , statsB := st.statsB + db
        , statsC := st.statsC + dc
        , pngs := st.pngs ++ pn
        , logs := st.logs ++
            [{ uIdx := u, sIdx := s, chat_id := c, stage := g, variant := v
             , pngMade := pm, sendRes := so, counted := ct }]
        , rng := st.rng } ∧
      dp ≤ 1 ∧ dp = da + db + dc ∧
      (∀ p ∈ pn, p = png_file_name (g ++ "_" ++ v) c) := by
  by_cases h : (env.renderOk u s && env.pngOk u s) = true
  · by_cases hva : v = "a"
    · refine ⟨[png_file_name (g ++ "_" ++ v) c], 1, 1, 0, 0, true, true,
        if sr then some (env.send u s) else none, ?_, by omega, by omega, by simp⟩
      simp [pairStep, bumpStats, h, hva]
    · by_cases hvb : v = "b"
      · refine ⟨[png_file_name (g ++ "_" ++ v) c], 1, 0, 1, 0, true, true,
          if sr then some (env.send u s) else none, ?_, by omega, by omega, by simp⟩
        simp [pairStep, bumpStats, h, hva, hvb]
      · by_cases hvc : v = "c"
        · refine ⟨[png_file_name (g ++ "_" ++ v) c], 1, 0, 0, 1, true, true,
            if sr then some (env.send u s) else none, ?_, by omega, by omega, by simp⟩
          simp [pairStep, bumpStats, h, hva, hvb, hvc]
        · refine ⟨[png_file_name (g ++ "_" ++ v) c], 0, 0, 0, 0, true, false,
            if sr then some (env.send u s) else none, ?_, by omega, by omega, by simp⟩
          simp [pairStep, bumpStats, h, hva, hvb, hvc]
  · refine ⟨[], 0, 0, 0, 0, false, false, none, ?_, by omega, by omega, by simp⟩
    simp [pairStep, h]

lemma runStages_shape (env : Env) (sr : Bool) (u : Nat) (c : Int) (v : String)
    (stages : List (Nat × String)) (st : LoopState) :
    ∃ (pn : List String) (ln : List PairLog) (dp da db dc : Nat),
      runStages env sr u c v stages st =
        { processed := st.processed + dp
        , statsA := st.statsA + da
        , statsB := st.statsB + db
        , statsC := st.statsC + dc
        , pngs := st.pngs ++ pn
        , logs := st.logs ++ ln
        , rng := st.rng } ∧
      dp ≤ stages.length ∧ dp = da + db + dc ∧ ln.length = stages.length ∧
      (∀ l ∈ ln, l.uIdx = u ∧ l.chat_id = c ∧ l.variant = v ∧
        l.stage ∈ stages.map Prod.snd) ∧
      (∀ p ∈ pn, ∃ l ∈ ln, p = png_file_name (l.stage ++ "_" ++ l.variant) l.chat_id) := by
  induction stages generalizing st with
  | nil =>
    refine ⟨[], [], 0, 0, 0, 0, ?_, by simp, by omega, by simp, by simp, by simp⟩
    simp [runStages]
  | cons head rest ih =>
    obtain ⟨sIdx, stage⟩ := head
    obtain ⟨pn1, dp1, da1, db1, dc1, pm, ct, so, heq1, hdp1, hsum1, hpn1⟩ :=
      pairStep_shape env sr u sIdx c v stage st
    obtain ⟨pn2, ln2, dp2, da2, db2, dc2, heq2, hdp2, hsum2, hlen2, hmem2, hpng2⟩ :=
      ih { processed := st.processed + dp1
         , statsA := st.statsA + da1
         , statsB := st.statsB + db1
         , statsC := st.statsC + dc1
         , pngs := st.pngs ++ pn1
         , logs := st.logs ++
             [{ uIdx := u, sIdx := sIdx, chat_id := c, stage := stage, variant := v
              , pngMade := pm, sendRes := so, counted := ct }]
         , rng := st.rng }
    refine ⟨pn1 ++ pn2,
      { uIdx := u, sIdx := sIdx, chat_id := c, stage := stage, variant := v
      , pngMade := pm, sendRes := so, counted := ct } :: ln2,
      dp1 + dp2, da1 + da2, db1 + db2, dc1 + dc2, ?_, ?_, by omega, ?_, ?_, ?_⟩
    · rw [runStages, heq1, heq2]
      simp [Nat.add_assoc, List.append_assoc]
    · simp only [List.length_cons]
      omega
    · simp [hlen2]
    · intro l hl
      rcases List.mem_cons.mp hl with hl | hl
      · subst hl
        exact ⟨rfl, rfl, rfl, by simp⟩
      · obtain ⟨h1, h2, h3, h4⟩ := hmem2 l hl
        exact ⟨h1, h2, h3, by simp [h4]⟩
    · intro p hp
      rcases List.mem_append.mp hp with hp | hp
      · exact ⟨_, List.mem_cons_self _ _, hpn1 p hp⟩
      · obtain ⟨l, hl, hpl⟩ := hpng2 p hp
        exact ⟨l, List.mem_cons_of_mem _ hl, hpl⟩

lemma plannedVariant_cons_succ (mode : VariantMode) (rng : Rng) (u : FunnelUser)
    (users : List FunnelUser) (k : Nat) (hk : k < users.length) :
    plannedVariant mode
      (match mode with
       | .fixed => rng
       | .random => { seq := rng.seq, pos := rng.pos + 1 }) users k hk =
    plannedVariant mode rng (u :: users) (k + 1) (by simpa using Nat.succ_lt_succ hk) := by
  cases mode with
  | fixed => rfl
  | random =>
    simp only [plannedVariant]
    have h : rng.pos + 1 + k = rng.pos + (k + 1) := by omega
    congr 1
    simp [h]

lemma plannedVariant_cons_zero (mode : VariantMode) (rng : Rng) (u : FunnelUser)
    (users : List FunnelUser) :
    plannedVariant mode rng (u :: users) 0 (Nat.succ_pos _) =
    (pickVariant mode u rng).1 := by
  cases mode with
  | fixed => rfl
  | random =>
    simp [plannedVariant, pickVariant, get_random_variant]

lemma runUsers_shape (env : Env) (sr : Bool) (mode : VariantMode)
    (users : List FunnelUser) (i : Nat) (st : LoopState) :
    ∃ (pn : List String) (ln : List PairLog) (dp da db dc : Nat),
      runUsers env sr mode users i st =
        { processed := st.processed + dp
        , statsA := st.statsA + da
        , statsB := st.statsB + db
        , statsC := st.statsC + dc
        , pngs := st.pngs ++ pn
        , logs := st.logs ++ ln
        , rng :=
            match mode with
            | .fixed => st.rng
            | .random => { seq := st.rng.seq, pos := st.rng.pos + users.length } } ∧
      dp ≤ 3 * users.length ∧ dp = da + db + dc ∧ ln.length = 3 * users.length ∧
      (∀ l ∈ ln, l.stage ∈ STAGES ∧
        ∃ k, ∃ hk : k < users.length, l.uIdx = i + k ∧
          l.chat_id = (users.get ⟨k, hk⟩).telegram_id ∧
          l.variant = plannedVariant mode st.rng users k hk) ∧
      (∀ p ∈ pn, ∃ l ∈ ln, p = png_file_name (l.stage ++ "_" ++ l.variant) l.chat_id) := by
  induction users generalizing i st with
  | nil =>
    refine ⟨[], [], 0, 0, 0, 0, ?_, by simp, by omega, by simp, by simp, by simp⟩
    cases mode <;> simp [runUsers]
  | cons u rest ih =>
    obtain ⟨pn1, ln1, dp1, da1, db1, dc1, heq1, hdp1, hsum1, hlen1, hmem1, hpng1⟩ :=
      runStages_shape env sr i u.telegram_id (pickVariant mode u st.rng).1 STAGES.enum
        { st with rng := (pickVariant mode u st.rng).2 }
    obtain ⟨pn2, ln2, dp2, da2, db2, dc2, heq2, hdp2, hsum2, hlen2, hmem2, hpng2⟩ :=
      ih (i + 1)
        { processed := st.processed + dp1
        , statsA := st.statsA + da1
        , statsB := st.statsB + db1
        , statsC := st.statsC + dc1
        , pngs := st.pngs ++ pn1
        , logs := st.logs ++ ln1
        , rng := (pickVariant mode u st.rng).2 }
    refine ⟨pn1 ++ pn2, ln1 ++ ln2, dp1 + dp2, da1 + da2, db1 + db2, dc1 + dc2,
      ?_, ?_, by omega, ?_, ?_, ?_⟩
    · rw [runUsers, heq1, heq2]
      have hrng : (match mode with
          | VariantMode.fixed => (pickVariant mode u st.rng).2
          | VariantMode.random =>
            { seq := (pickVariant mode u st.rng).2.seq
            , pos := (pickVariant mode u st.rng).2.pos + rest.length }) =
          (match mode with
          | VariantMode.fixed => st.rng
          | VariantMode.random =>
            { seq := st.rng.seq, pos := st.rng.pos + (rest.length + 1) }) := by
        cases mode with
        | fixed => rfl
        | random =>
          simp only [pickVariant, get_random_variant]
          congr 1
          omega
      simp [Nat.add_assoc, List.append_assoc, hrng]
      cases mode <;> rfl
    · have h3 : STAGES.enum.length = 3 := by decide
      rw [h3] at hdp1
      simp only [List.length_cons]
      omega
    · have h3 : STAGES.enum.length = 3 := by decide
      rw [h3] at hlen1
      simp [hlen1, hlen2]
      omega
    · intro l hl
      rcases List.mem_append.mp hl with hl | hl
      · obtain ⟨h1, h2, h3, h4⟩ := hmem1 l hl
        have hst : l.stage ∈ STAGES := by
          have : STAGES.enum.map Prod.snd = STAGES := by decide
          rwa [this] at h4
        refine ⟨hst, 0, Nat.succ_pos _, by omega, by simpa using h2, ?_⟩
        rw [h3, plannedVariant_cons_zero]
      · obtain ⟨hst, k, hk, h1, h2, h3⟩ := hmem2 l hl
        refine ⟨hst, k + 1, by simpa using Nat.succ_lt_succ hk, by omega, by simpa using h2, ?_⟩
        rw [h3, ← plannedVariant_cons_succ mode st.rng u rest k hk]
        rcases mode with _ | _ <;> rfl
    · intro p hp
      rcases List.mem_append.mp hp with hp | hp
      · obtain ⟨l, hl, hpl⟩ := hpng1 p hp
        exact ⟨l, List.mem_append_left _ hl, hpl⟩
      · obtain ⟨l, hl, hpl⟩ := hpng2 p hp
        exact ⟨l, List.mem_append_right _ hl, hpl⟩

-- ═══════════════════════════════════════════════════════════════════════════
-- Claim theorems
-- ═══════════════════════════════════════════════════════════════════════════

/-- Claim C10: at every step and in the final state of the delivery loop,
the processed count equals the sum of the three per-variant tallies, and the
final processed count never exceeds recipients times three stages. -/
theorem claim10_counter_invariant (env : Env) (users : List FunnelUser)
    (sr : Bool) (mode : VariantMode) (rng : Rng) :
    ((send_funnel env users sr mode rng).processed =
       (send_funnel env users sr mode rng).statsA +
       (send_funnel env users sr mode rng).statsB +
       (send_funnel env users sr mode rng).statsC ∧
     (send_funnel env users sr mode rng).processed ≤ users.length * 3) ∧
    (∀ (st : LoopState) (u s : Nat) (c : Int) (v g : String),
       st.processed = st.statsA + st.statsB + st.statsC →
       (pairStep env sr u s c v g st).processed =
         (pairStep env sr u s c v g st).statsA +
         (pairStep env sr u s c v g st).statsB +
         (pairStep env sr u s c v g st).statsC) := by
  constructor
  · obtain ⟨pn, ln, dp, da, db, dc, heq, hdp, hsum, -, -, -⟩ :=
      runUsers_shape env sr mode users 0 (initState rng)
    rw [send_funnel, heq]
    simp only [initState]
    omega
  · intro st u s c v g hinv
    obtain ⟨pn, dp, da, db, dc, pm, ct, so, heq, hdp, hsum, -⟩ :=
      pairStep_shape env sr u s c v g st
    rw [heq]
    simp only
    omega

/-- Witness for C10: a concrete full-success run over one recipient has
3 = 3 + 0 + 0 processed versus per-variant counts, and the step preservation
applies at the initial state. -/
theorem claim10_witness :
    ((send_funnel envAllOk [userAnna] true .fixed rngCycle).processed = 3 ∧
     (send_funnel envAllOk [userAnna] true .fixed rngCycle).statsB = 3) ∧
    (pairStep envAllOk true 0 0 555 "b" "interest" (initState rngCycle)).processed =
      (pairStep envAllOk true 0 0 555 "b" "interest" (initState rngCycle)).statsA +
      (pairStep envAllOk true 0 0 555 "b" "interest" (initState rngCycle)).statsB +
      (pairStep envAllOk true 0 0 555 "b" "interest" (initState rngCycle)).statsC := by
  refine ⟨⟨by decide, by decide⟩, ?_⟩
  exact (claim10_counter_invariant envAllOk [userAnna] true .fixed rngCycle).2
    (initState rngCycle) 0 0 555 "b" "interest" (by decide)

lemma pairStep_send_agnostic (env₁ env₂ : Env)
    (hr : env₁.renderOk = env₂.renderOk) (hp : env₁.pngOk = env₂.pngOk)
    (sr : Bool) (u s : Nat) (c : Int) (v g : String) (st₁ st₂ : LoopState)
    (h1 : st₁.processed = st₂.processed) (h2 : st₁.statsA = st₂.statsA)
    (h3 : st₁.statsB = st₂.statsB) (h4 : st₁.statsC = st₂.statsC)
    (h5 : st₁.pngs = st₂.pngs) (h6 : st₁.logs.length = st₂.logs.length)
    (h7 : st₁.rng = st₂.rng) :
    (pairStep env₁ sr u s c v g st₁).processed = (pairStep env₂ sr u s c v g st₂).processed ∧
    (pairStep env₁ sr u s c v g st₁).statsA = (pairStep env₂ sr u s c v g st₂).statsA ∧
    (pairStep env₁ sr u s c v g st₁).statsB = (pairStep env₂ sr u s c v g st₂).statsB ∧
    (pairStep env₁ sr u s c v g st₁).statsC = (pairStep env₂ sr u s c v g st₂).statsC ∧
    (pairStep env₁ sr u s c v g st₁).pngs = (pairStep env₂ sr u s c v g st₂).pngs ∧
    (pairStep env₁ sr u s c v g st₁).logs.length = (pairStep env₂ sr u s c v g st₂).logs.length ∧
    (pairStep env₁ sr u s c v g st₁).rng = (pairStep env₂ sr u s c v g st₂).rng := by
  have hc1 : env₁.renderOk u s = env₂.renderOk u s := by rw [hr]
  have hc2 : env₁.pngOk u s = env₂.pngOk u s := by rw [hp]
  by_cases hcond : (env₂.renderOk u s && env₂.pngOk u s) = true
  · by_cases hva : v = "a"
    · simp [pairStep, bumpStats, hc1, hc2, hcond, hva, h1, h2, h3, h4, h5, h6, h7]
    · by_cases hvb : v = "b"
      · simp [pairStep, bumpStats, hc1, hc2, hcond, hva, hvb, h1, h2, h3, h4, h5, h6, h7]
      · by_cases hvc : v = "c"
        · simp [pairStep, bumpStats, hc1, hc2, hcond, hva, hvb, hvc,
            h1, h2, h3, h4, h5, h6, h7]
        · simp [pairStep, bumpStats, hc1, hc2, hcond, hva, hvb, hvc,
            h1, h2, h3, h4, h5, h6, h7]
  · simp [pairStep, hc1, hc2, hcond, h1, h2, h3, h4, h5, h6, h7]

lemma runStages_send_agnostic (env₁ env₂ : Env)
    (hr : env₁.renderOk = env₂.renderOk) (hp : env₁.pngOk = env₂.pngOk)
    (sr : Bool) (u : Nat) (c : Int) (v : String) (stages : List (Nat × String))
    (st₁ st₂ : LoopState)
    (h1 : st₁.processed = st₂.processed) (h2 : st₁.statsA = st₂.statsA)
    (h3 : st₁.statsB = st₂.statsB) (h4 : st₁.statsC = st₂.statsC)
    (h5 : st₁.pngs = st₂.pngs) (h6 : st₁.logs.length = st₂.logs.length)
    (h7 : st₁.rng = st₂.rng) :
    (runStages env₁ sr u c v stages st₁).processed = (runStages env₂ sr u c v stages st₂).processed ∧
    (runStages env₁ sr u c v stages st₁).statsA = (runStages env₂ sr u c v stages st₂).statsA ∧
    (runStages env₁ sr u c v stages st₁).statsB = (runStages env₂ sr u c v stages st₂).statsB ∧
    (runStages env₁ sr u c v stages st₁).statsC = (runStages env₂ sr u c v stages st₂).statsC ∧
    (runStages env₁ sr u c v stages st₁).pngs = (runStages env₂ sr u c v stages st₂).pngs ∧
    (runStages env₁ sr u c v stages st₁).logs.length =
      (runStages env₂ sr u c v stages st₂).logs.length ∧
    (runStages env₁ sr u c v stages st₁).rng = (runStages env₂ sr u c v stages st₂).rng := by
  induction stages generalizing st₁ st₂ with
  | nil => exact ⟨h1, h2, h3, h4, h5, h6, h7⟩
  | cons head rest ih =>
    obtain ⟨sIdx, stage⟩ := head
    obtain ⟨g1, g2, g3, g4, g5, g6, g7⟩ :=
      pairStep_send_agnostic env₁ env₂ hr hp sr u sIdx c v stage st₁ st₂
        h1 h2 h3 h4 h5 h6 h7
    exact ih _ _ g1 g2 g3 g4 g5 g6 g7

lemma runUsers_send_agnostic (env₁ env₂ : Env)
    (hr : env₁.renderOk = env₂.renderOk) (hp : env₁.pngOk = env₂.pngOk)
    (sr : Bool) (mode : VariantMode) (users : List FunnelUser) (i : Nat)
    (st₁ st₂ : LoopState)
    (h1 : st₁.processed = st₂.processed) (h2 : st₁.statsA = st₂.statsA)
    (h3 : st₁.statsB = st₂.statsB) (h4 : st₁.statsC = st₂.statsC)
    (h5 : st₁.pngs = st₂.pngs) (h6 : st₁.logs.length = st₂.logs.length)
    (h7 : st₁.rng = st₂.rng) :
    (runUsers env₁ sr mode users i st₁).processed = (runUsers env₂ sr mode users i st₂).processed ∧
    (runUsers env₁ sr mode users i st₁).statsA = (runUsers env₂ sr mode users i st₂).statsA ∧
    (runUsers env₁ sr mode users i st₁).statsB = (runUsers env₂ sr mode users i st₂).statsB ∧
    (runUsers env₁ sr mode users i st₁).statsC = (runUsers env₂ sr mode users i st₂).statsC ∧
    (runUsers env₁ sr mode users i st₁).pngs = (runUsers env₂ sr mode users i st₂).pngs ∧
    (runUsers env₁ sr mode users i st₁).logs.length =
      (runUsers env₂ sr mode users i st₂).logs.length ∧
    (runUsers env₁ sr mode users i st₁).rng = (runUsers env₂ sr mode users i st₂).rng := by
  induction users generalizing i st₁ st₂ with
  | nil => exact ⟨h1, h2, h3, h4, h5, h6, h7⟩
  | cons u rest ih =>
    rw [runUsers, runUsers, h7]
    obtain ⟨g1, g2, g3, g4, g5, g6, g7⟩ :=
      runStages_send_agnostic env₁ env₂ hr hp sr i u.telegram_id
        (pickVariant mode u st₂.rng).1 STAGES.enum
        { st₁ with rng := (pickVariant mode u st₂.rng).2 }
        { st₂ with rng := (pickVariant mode u st₂.rng).2 }
        h1 h2 h3 h4 h5 h6 rfl
    exact ih _ _ _ g1 g2 g3 g4 g5 g6 g7

/-- Counterexample to C2 as stated: in a send-mode run where the
transmission for the second stage reports that the recipient blocked the
bot, the final processed count is still 3 of 3 — the failed pair IS counted
(the claim predicts 2), as its log entry shows. -/
theorem claim2_counterexample :
    (send_funnel envOneForbidden [userAnna] true .fixed rngCycle).processed = 3 ∧
    ¬((send_funnel envOneForbidden [userAnna] true .fixed rngCycle).processed = 2) ∧
    (∃ l ∈ (send_funnel envOneForbidden [userAnna] true .fixed rngCycle).logs,
      l.sendRes = some .forbidden ∧ l.counted = true) := by
  exact ⟨by decide, by decide, by decide⟩

/-- Claim C2 (amended): a transport fault for one (recipient, stage) pair is
caught and logged and does not abort processing — every recipients × 3 pair
is attempted and logged — but the failed pair is still counted: the
processed count, the per-variant tallies, and the set of written files are
all unchanged under any change of transmission outcomes. -/
theorem claim2_transport_fault_counting (env₁ env₂ : Env)
    (users : List FunnelUser) (sr : Bool) (mode : VariantMode) (rng : Rng)
    (hr : env₁.renderOk = env₂.renderOk) (hp : env₁.pngOk = env₂.pngOk) :
    (send_funnel env₁ users sr mode rng).processed =
      (send_funnel env₂ users sr mode rng).processed ∧
    (send_funnel env₁ users sr mode rng).statsA =
      (send_funnel env₂ users sr mode rng).statsA ∧
    (send_funnel env₁ users sr mode rng).statsB =
      (send_funnel env₂ users sr mode rng).statsB ∧
    (send_funnel env₁ users sr mode rng).statsC =
      (send_funnel env₂ users sr mode rng).statsC ∧
    (send_funnel env₁ users sr mode rng).pngs =
      (send_funnel env₂ users sr mode rng).pngs ∧
    (send_funnel env₁ users sr mode rng).logs.length = users.length * 3 := by
  obtain ⟨g1, g2, g3, g4, g5, g6, -⟩ :=
    runUsers_send_agnostic env₁ env₂ hr hp sr mode users 0
      (initState rng) (initState rng) rfl rfl rfl rfl rfl rfl rfl
  refine ⟨g1, g2, g3, g4, g5, ?_⟩
  obtain ⟨pn, ln, dp, da, db, dc, heq, -, -, hlen, -, -⟩ :=
    runUsers_shape env₁ sr mode users 0 (initState rng)
  rw [send_funnel, heq]
  simp only [initState, List.nil_append]
  omega

/-- Witness for C2: replacing the blocked-recipient fault of the concrete
run with a success changes neither the processed count nor the written
files; all three pairs are logged. -/
theorem claim2_witness :
    (send_funnel envOneForbidden [userAnna] true .fixed rngCycle).processed =
      (send_funnel envAllOk [userAnna] true .fixed rngCycle).processed ∧
    (send_funnel envOneForbidden [userAnna] true .fixed rngCycle).pngs =
      (send_funnel envAllOk [userAnna] true .fixed rngCycle).pngs ∧
    (send_funnel envOneForbidden [userAnna] true .fixed rngCycle).logs.length = 3 := by
  obtain ⟨g1, -, -, -, g5, g6⟩ :=
    claim2_transport_fault_counting envOneForbidden envAllOk [userAnna] true .fixed
      rngCycle rfl rfl
  exact ⟨g1, g5, g6⟩

lemma getCell_setTid_variant (r : Row) (x : String) :
    getCell (setCell r "telegram_id" x) "variant" = getCell r "variant" :=
  getCell_setCell_ne r "telegram_id" "variant" x (by decide)

lemma rowVariantValid_false_of_invalid {r : Row}
    (h : ∀ v, getCell r "variant" = some v → v ∉ VARIANTS) :
    rowVariantValid r = false := by
  unfold rowVariantValid
  cases hg : getCell r "variant" with
  | none => rfl
  | some v =>
    have hv := h v hg
    simpa using hv

lemma coerceVariant_invalid {r : Row}
    (h : ∀ v, getCell r "variant" = some v → v ∉ VARIANTS) :
    getCell (coerceVariant r) "variant" = some "a" := by
  unfold coerceVariant
  rw [rowVariantValid_false_of_invalid h]
  simp [getCell_setCell_self]

lemma defaulted_rows_valid {df0 df2 : DataFrame}
    (heqc : convertTelegramIds
      { columns := df0.columns ++ ["variant"]
      , rows := df0.rows.map (fun r => setCell r "variant" "a") } = some df2) :
    (∀ r ∈ df2.rows, getCell r "variant" = some "a") ∧
    (∀ r ∈ df2.rows, rowVariantValid r = true) ∧
    df2.rows.length = df0.rows.length := by
  obtain ⟨-, hrows⟩ := convertTelegramIds_rows heqc
  have hA : ∀ r ∈ df2.rows, getCell r "variant" = some "a" := by
    intro r hr
    rw [hrows] at hr
    simp only [List.mem_map] at hr
    obtain ⟨r1, hr1, rfl⟩ := hr
    obtain ⟨r0, hr0, rfl⟩ := hr1
    rw [getCell_setTid_variant]
    exact getCell_setCell_self r0 "variant" "a"
  refine ⟨hA, ?_, ?_⟩
  · intro r hr
    unfold rowVariantValid
    rw [hA r hr]
    decide
  · rw [hrows]
    simp

/-- Claim C5: after a successful load every record carries a variant that is
one of the three known codes; when the variant column was absent, a warning
is emitted and every record gets the first code; and any record whose
variant value lies outside the three-code set is coerced specifically to
the first code a, so the raw invalid value is never observed post-load. -/
theorem claim5_variant_post_load (csv : Option DataFrame) (df : DataFrame)
    (ws : List String) (h : load_users csv = .ok (df, ws)) :
    (∀ r ∈ df.rows, ∃ v, getCell r "variant" = some v ∧ v ∈ VARIANTS) ∧
    (∀ d : DataFrame, csv = some d → d.columns.contains "variant" = false →
       ws ≠ [] ∧ ∀ r ∈ df.rows, getCell r "variant" = some "a") ∧
    (∀ d : DataFrame, csv = some d →
       df.rows.length = d.rows.length ∧
       ∀ (i : Nat) (rIn : Row), d.rows[i]? = some rIn →
         (∀ v, getCell rIn "variant" = some v → v ∉ VARIANTS) →
         ∃ rOut, df.rows[i]? = some rOut ∧ getCell rOut "variant" = some "a") := by
  cases csv with
  | none => simp [load_users] at h
  | some df0 =>
    simp only [load_users] at h
    split at h
    · simp at h
    · split at h
      · simp at h
      · rename_i df2 heqc
        split at h
        · rename_i hinv
          rw [Except.ok.injEq, Prod.mk.injEq] at h
          obtain ⟨hdf, hws⟩ := h
          subst hdf
          subst hws
          refine ⟨?_, ?_, ?_⟩
          · intro r hr
            simp only [List.mem_map] at hr
            obtain ⟨r0, hr0, rfl⟩ := hr
            exact rowVariantValid_elim (coerceVariant_valid r0)
          · intro d hd hcol
            injection hd with hd2
            subst hd2
            have hcond : ¬(df0.columns.contains "variant" = true) := by rw [hcol]; simp
            rw [if_neg hcond] at heqc
            have heqc2 : convertTelegramIds
                { columns := df0.columns ++ ["variant"]
                , rows := df0.rows.map (fun r => setCell r "variant" "a") } = some df2 := heqc
            have hall := (defaulted_rows_valid heqc2).2.1
            have hnil : df2.rows.filter (fun r => !(rowVariantValid r)) = [] := by
              rw [List.filter_eq_nil_iff]
              intro r hr
              simp [hall r hr]
            exact absurd hnil hinv
          · intro d hd
            injection hd with hd2
            subst hd2
            by_cases hvc : df0.columns.contains "variant" = true
            · rw [if_pos hvc] at heqc
              have heqc2 : convertTelegramIds df0 = some df2 := heqc
              have hrows2 : df2.rows = df0.rows.map (fun r =>
                  setCell r "telegram_id"
                    (toString (((getCell r "telegram_id").bind parseInt).getD 0))) :=
                (convertTelegramIds_rows heqc2).2
              constructor
              · show (df2.rows.map coerceVariant).length = df0.rows.length
                rw [hrows2]
                simp
              · intro i rIn hrIn hinvalid
                refine ⟨coerceVariant (setCell rIn "telegram_id"
                    (toString (((getCell rIn "telegram_id").bind parseInt).getD 0))), ?_, ?_⟩
                · show (df2.rows.map coerceVariant)[i]? =
                    some (coerceVariant (setCell rIn "telegram_id"
                      (toString (((getCell rIn "telegram_id").bind parseInt).getD 0))))
                  rw [List.getElem?_map, hrows2, List.getElem?_map, hrIn]
                  rfl
                · apply coerceVariant_invalid
                  intro v hv
                  rw [getCell_setTid_variant] at hv
                  exact hinvalid v hv
            · have hcond : ¬(df0.columns.contains "variant" = true) := hvc
              rw [if_neg hcond] at heqc
              have heqc2 : convertTelegramIds
                  { columns := df0.columns ++ ["variant"]
                  , rows := df0.rows.map (fun r => setCell r "variant" "a") } = some df2 := heqc
              have hall := (defaulted_rows_valid heqc2).2.1
              have hnil : df2.rows.filter (fun r => !(rowVariantValid r)) = [] := by
                rw [List.filter_eq_nil_iff]
                intro r hr
                simp [hall r hr]
              exact absurd hnil hinv
        · rename_i hinv
          rw [Except.ok.injEq, Prod.mk.injEq] at h
          obtain ⟨hdf, hws⟩ := h
          subst hdf
          subst hws
          have hnil : df2.rows.filter (fun r => !(rowVariantValid r)) = [] :=
            not_ne_iff.mp hinv
          have hall : ∀ r ∈ df2.rows, rowVariantValid r = true := by
            intro r hr
            have := List.filter_eq_nil_iff.mp hnil r hr
            simpa using this
          refine ⟨?_, ?_, ?_⟩
          · intro r hr
            exact rowVariantValid_elim (hall r hr)
          · intro d hd hcol
            injection hd with hd2
            subst hd2
            have hcond : ¬(df0.columns.contains "variant" = true) := by rw [hcol]; simp
            rw [if_neg hcond] at heqc
            have heqc2 : convertTelegramIds
                { columns := df0.columns ++ ["variant"]
                , rows := df0.rows.map (fun r => setCell r "variant" "a") } = some df2 := heqc
            refine ⟨by rw [if_neg hcond]; simp, ?_⟩
            intro r hr
            exact (defaulted_rows_valid heqc2).1 r hr
          · intro d hd
            injection hd with hd2
            subst hd2
            by_cases hvc : df0.columns.contains "variant" = true
            · rw [if_pos hvc] at heqc
              have heqc2 : convertTelegramIds df0 = some df2 := heqc
              have hrows2 : df2.rows = df0.rows.map (fun r =>
                  setCell r "telegram_id"
                    (toString (((getCell r "telegram_id").bind parseInt).getD 0))) :=
                (convertTelegramIds_rows heqc2).2
              constructor
              · rw [hrows2]
                simp
              · intro i rIn hrIn hinvalid
                exfalso
                have hi : i < df0.rows.length := by
                  by_contra hni
                  rw [List.getElem?_eq_none (by omega)] at hrIn
                  simp at hrIn
                have hmemIn : rIn ∈ df0.rows := by
                  have he := hrIn.symm.trans (List.getElem?_eq_getElem hi)
                  injection he with he2
                  rw [he2]
                  exact List.getElem_mem hi
                have hmem2 : (setCell rIn "telegram_id"
                    (toString (((getCell rIn "telegram_id").bind parseInt).getD 0)))
                      ∈ df2.rows := by
                  rw [hrows2]
                  exact List.mem_map_of_mem _ hmemIn
                have htrue := hall _ hmem2
                have hfalse : rowVariantValid (setCell rIn "telegram_id"
                    (toString (((getCell rIn "telegram_id").bind parseInt).getD 0))) = false := by
                  apply rowVariantValid_false_of_invalid
                  intro v hv
                  rw [getCell_setTid_variant] at hv
                  exact hinvalid v hv
                rw [htrue] at hfalse
                cases hfalse
            · have hcond : ¬(df0.columns.contains "variant" = true) := hvc
              rw [if_neg hcond] at heqc
              have heqc2 : convertTelegramIds
                  { columns := df0.columns ++ ["variant"]
                  , rows := df0.rows.map (fun r => setCell r "variant" "a") } = some df2 := heqc
              have hlen : df2.rows.length = df0.rows.length :=
                (defaulted_rows_valid heqc2).2.2
              refine ⟨hlen, ?_⟩
              intro i rIn hrIn hinvalid
              have hi : i < df0.rows.length := by
                by_contra hni
                rw [List.getElem?_eq_none (by omega)] at hrIn
                simp at hrIn
              have hi2 : i < df2.rows.length := by omega
              refine ⟨df2.rows.get ⟨i, hi2⟩, ?_, ?_⟩
              · rw [List.getElem?_eq_getElem hi2]
                simp [List.get_eq_getElem]
              · exact (defaulted_rows_valid heqc2).1 _ (List.get_mem _ _ _)

/-- Witness for C5: a record whose variant value z lies outside the
three-code set is coerced specifically to the first code a, and the loaded
record carries a valid code. -/
theorem claim5_witness :
    (∃ rOut,
       ({ columns := ["name", "role", "company", "telegram_id", "variant"]
        , rows := [[("name", "Anna"), ("role", "CEO"), ("company", "Acme"),
                    ("telegram_id", "555"), ("variant", "a")]] } : DataFrame).rows[0]? =
         some rOut ∧
       getCell rOut "variant" = some "a") ∧
    (∃ v, getCell [("name", "Anna"), ("role", "CEO"), ("company", "Acme"),
        ("telegram_id", "555"), ("variant", "a")] "variant" = some v ∧ v ∈ VARIANTS) := by
  have h : load_users (some dfInvalidVariant) =
      .ok ({ columns := ["name", "role", "company", "telegram_id", "variant"]
           , rows := [[("name", "Anna"), ("role", "CEO"), ("company", "Acme"),
                       ("telegram_id", "555"), ("variant", "a")]] },
           ["Найдены некорректные варианты: [z]"]) := by decide
  obtain ⟨h1, -, h3⟩ := claim5_variant_post_load (some dfInvalidVariant) _ _ h
  obtain ⟨-, hco⟩ := h3 dfInvalidVariant rfl
  refine ⟨?_, ?_⟩
  · exact hco 0
      [("name", "Anna"), ("role", "CEO"), ("company", "Acme"),
       ("telegram_id", "555"), ("variant", "z")]
      (by decide)
      (by
        intro v hv
        have hv2 : some "z" = some v := hv
        injection hv2 with hv3
        rw [← hv3]
        decide)
  · exact h1 _ (by decide)

/-- Counterexample to C1 as stated: in random mode with a generator whose
successive draws are a, b, c, one recipient receives variant a on all three
stages and only one position of the generator is consumed — the draw is not
made per (recipient, stage) pair. -/
theorem claim1_counterexample :
    (send_funnel envAllOk [userAnna] true .random rngCycle).logs.map PairLog.variant =
      ["a", "a", "a"] ∧
    (send_funnel envAllOk [userAnna] true .random rngCycle).rng.pos = 1 ∧
    (get_random_variant rngCycle).1 = "a" ∧
    (get_random_variant (get_random_variant rngCycle).2).1 = "b" := by
  exact ⟨by decide, by decide, by decide, by decide⟩

/-- Claim C1 (amended): in random mode the delivery loop draws the variant
once per recipient — the generator advances by exactly the number of
recipients, every (recipient, stage) pair of recipient `k` uses the `k`-th
draw, and all stages of one recipient share a single variant; in fixed mode
the recipient's stored variant (default first code) is used for all three
stages and the generator is untouched. -/
theorem claim1_variant_per_recipient (env : Env) (users : List FunnelUser)
    (sr : Bool) (rng : Rng) (mode : VariantMode) :
    ((send_funnel env users sr mode rng).rng =
       match mode with
       | .fixed => rng
       | .random => { seq := rng.seq, pos := rng.pos + users.length }) ∧
    (∀ l ∈ (send_funnel env users sr mode rng).logs,
       ∃ k, ∃ hk : k < users.length, l.uIdx = k ∧
         l.chat_id = (users.get ⟨k, hk⟩).telegram_id ∧
         l.variant = plannedVariant mode rng users k hk) ∧
    (∀ l₁ ∈ (send_funnel env users sr mode rng).logs,
     ∀ l₂ ∈ (send_funnel env users sr mode rng).logs,
       l₁.uIdx = l₂.uIdx → l₁.variant = l₂.variant) := by
  obtain ⟨pn, ln, dp, da, db, dc, heq, -, -, -, hmem, -⟩ :=
    runUsers_shape env sr mode users 0 (initState rng)
  rw [send_funnel, heq]
  refine ⟨by cases mode <;> rfl, ?_, ?_⟩
  · intro l hl
    simp only [initState, List.nil_append] at hl
    obtain ⟨-, k, hk, h1, h2, h3⟩ := hmem l hl
    exact ⟨k, hk, by omega, h2, h3⟩
  · intro l₁ h₁ l₂ h₂ hu
    simp only [initState, List.nil_append] at h₁ h₂
    obtain ⟨-, k₁, hk₁, e₁, -, v₁⟩ := hmem l₁ h₁
    obtain ⟨-, k₂, hk₂, e₂, -, v₂⟩ := hmem l₂ h₂
    have hkk : k₁ = k₂ := by omega
    subst hkk
    rw [v₁, v₂]

/-- Witness for C1: in the concrete random-mode run, the logged first-stage
entry uses the recipient's single planned draw. -/
theorem claim1_witness :
    ({ uIdx := 0, sIdx := 0, chat_id := 555, stage := "interest", variant := "a"
     , pngMade := true, sendRes := some .success, counted := true } : PairLog) ∈
      (send_funnel envAllOk [userAnna] true .random rngCycle).logs ∧
    ({ uIdx := 0, sIdx := 0, chat_id := 555, stage := "interest", variant := "a"
     , pngMade := true, sendRes := some .success, counted := true } : PairLog).variant =
      plannedVariant .random rngCycle [userAnna] 0 (Nat.succ_pos 0) := by
  refine ⟨by decide, ?_⟩
  obtain ⟨k, hk, h1, h2, h3⟩ :=
    (claim1_variant_per_recipient envAllOk [userAnna] true rngCycle .random).2.1
      { uIdx := 0, sIdx := 0, chat_id := 555, stage := "interest", variant := "a"
      , pngMade := true, sendRes := some .success, counted := true } (by decide)
  have hk0 : k = 0 := h1.symm.trans rfl
  subst hk0
  exact h3

/-- Counterexample to C3 as stated: a send-mode run writes files whose name
includes the variant — `interest_b_555.png`, not `interest_555.png`. -/
theorem claim3_counterexample :
    (send_funnel envAllOk [userAnna] true .fixed rngCycle).pngs =
      ["interest_b_555.png", "solution_b_555.png", "deadline_b_555.png"] ∧
    "interest_555.png" ∉ (send_funnel envAllOk [userAnna] true .fixed rngCycle).pngs := by
  exact ⟨by decide, by decide⟩

/-- Claim C3 (amended): in both test and send mode, every rasterized file of
a processed pair is named `{stage}_{variant}_{recipientId}.png` — the label
passed to the rasterizer always carries the variant — and every logged stage
is one of the three funnel stages. -/
theorem claim3_png_naming (env : Env) (users : List FunnelUser) (sr : Bool)
    (mode : VariantMode) (rng : Rng) :
    (∀ p ∈ (send_funnel env users sr mode rng).pngs,
       ∃ l ∈ (send_funnel env users sr mode rng).logs,
         p = png_file_name (l.stage ++ "_" ++ l.variant) l.chat_id) ∧
    (∀ l ∈ (send_funnel env users sr mode rng).logs, l.stage ∈ STAGES) := by
  obtain ⟨pn, ln, dp, da, db, dc, heq, -, -, -, hmem, hpng⟩ :=
    runUsers_shape env sr mode users 0 (initState rng)
  rw [send_funnel, heq]
  constructor
  · intro p hp
    simp only [initState, List.nil_append] at hp ⊢
    exact hpng p hp
  · intro l hl
    simp only [initState, List.nil_append] at hl
    exact (hmem l hl).1

/-- Witness for C3: the concrete file `interest_b_555.png` of the send-mode
run is accounted for by a log entry carrying its stage, variant, and
recipient identifier. -/
theorem claim3_witness :
    ∃ l ∈ (send_funnel envAllOk [userAnna] true .fixed rngCycle).logs,
      "interest_b_555.png" = png_file_name (l.stage ++ "_" ++ l.variant) l.chat_id :=
  (claim3_png_naming envAllOk [userAnna] true .fixed rngCycle).1
    "interest_b_555.png" (by decide)

/-- Claim C4: `get_image_size` returns the profile size-map entry of the
chosen format when that key is present, otherwise the built-in default
table entry for that key; and the result is a pair of positive integers
whenever the profile size-map entries are positive. -/
theorem claim4_get_image_size (p : Profile) :
    (∀ wh : Int × Int,
       alistGet ((p.image.map ImageConfig.sizes).getD [])
         ((p.image.bind ImageConfig.format).getD "wide") = some wh →
       get_image_size p = wh) ∧
    (alistGet ((p.image.map ImageConfig.sizes).getD [])
       ((p.image.bind ImageConfig.format).getD "wide") = none →
     ∀ wh : Int × Int,
       alistGet default_sizes ((p.image.bind ImageConfig.format).getD "wide") = some wh →
       get_image_size p = wh ∧ 0 < wh.1 ∧ 0 < wh.2) ∧
    ((∀ k wh, (k, wh) ∈ (p.image.map ImageConfig.sizes).getD [] → 0 < wh.1 ∧ 0 < wh.2) →
     0 < (get_image_size p).1 ∧ 0 < (get_image_size p).2) := by
  refine ⟨?_, ?_, ?_⟩
  · intro wh h
    simp [get_image_size, h]
  · intro hnone wh h
    refine ⟨by simp [get_image_size, hnone, h], default_sizes_pos h⟩
  · intro hpos
    rcases hs : alistGet ((p.image.map ImageConfig.sizes).getD [])
        ((p.image.bind ImageConfig.format).getD "wide") with _ | wh
    · rcases hd : alistGet default_sizes ((p.image.bind ImageConfig.format).getD "wide")
          with _ | wh
      · simp [get_image_size, hs, hd]
      · have := default_sizes_pos hd
        simpa [get_image_size, hs, hd] using this
    · have := hpos _ _ (alistGet_mem hs)
      simpa [get_image_size, hs] using this

/-- Witness for C4 at the hard-coded default profile: its own size map has
the chosen format (wide), giving 1200 x 630. -/
theorem claim4_witness :
    get_image_size get_default_profile = (1200, 630) ∧
    (0 : Int) < (get_image_size get_default_profile).1 := by
  have hpos : ∀ (k : String) (wh : Int × Int),
      (k, wh) ∈ (Option.map ImageConfig.sizes get_default_profile.image).getD [] →
      0 < wh.1 ∧ 0 < wh.2 := by
    intro k wh hmem
    simp [get_default_profile] at hmem
    rcases hmem with ⟨_, h⟩ | ⟨_, h⟩ | ⟨_, h⟩ | ⟨_, h⟩ <;> rw [h] <;>
      exact ⟨by decide, by decide⟩
  refine ⟨(claim4_get_image_size get_default_profile).1 (1200, 630) (by decide), ?_⟩
  exact ((claim4_get_image_size get_default_profile).2.2 hpos).1

/-- Claim C6: the call-to-action text is the `cta.texts` entry selected by
stage; it is used as-is when it contains a directional arrow or ends in an
exclamation or question mark, otherwise the configured icon is appended
exactly once, and only when not already contained in the text. -/
theorem claim6_get_cta_text (p : Profile) (stage t : String)
    (ht : alistGet ((p.cta.map CtaConfig.texts).getD []) stage = some t) :
    ((strContains t "→" || strContains t "←" || t.endsWith "!" || t.endsWith "?") = true →
       get_cta_text p stage = t) ∧
    ((strContains t "→" || strContains t "←" || t.endsWith "!" || t.endsWith "?") = false →
       ∀ icon, (p.cta.bind CtaConfig.icon).getD "" = icon → icon ≠ "" →
       strContains t icon = false →
       get_cta_text p stage = t ++ " " ++ icon) ∧
    ((strContains t "→" || strContains t "←" || t.endsWith "!" || t.endsWith "?") = false →
       ∀ icon, (p.cta.bind CtaConfig.icon).getD "" = icon →
       (icon = "" ∨ strContains t icon = true) →
       get_cta_text p stage = t) := by
  refine ⟨?_, ?_, ?_⟩
  · intro h
    simp [get_cta_text, ht, h]
  · intro h icon hicon hne hnotin
    simp [get_cta_text, ht, h, hicon, hne, hnotin]
  · intro h icon hicon hcase
    rcases hcase with he | hin
    · simp [get_cta_text, ht, h, hicon, he]
    · simp [get_cta_text, ht, h, hicon, hin]

/-- Witness for C6 at the default profile and the interest stage: the text
has no arrow and no terminal punctuation, so the arrow icon is appended. -/
theorem claim6_witness :
    get_cta_text get_default_profile "interest" = "Узнать больше" ++ " " ++ "→" :=
  (claim6_get_cta_text get_default_profile "interest" "Узнать больше" (by decide)).2.1
    (by decide) "→" (by decide) (by decide) (by decide)

/-- Claim C8: rendering is deterministic. With the process random generator
made explicit, `render_html` neither depends on nor advances the generator
(two calls at the same inputs agree bytewise whatever the generator state),
while `get_random_variant` — the only random call site, used for variant
selection — does advance it. -/
theorem claim8_render_deterministic (env : RenderEnv) (stage variant : String)
    (user_data : List (String × String)) (profile : Option Profile) (rng₁ rng₂ : Rng) :
    (render_htmlR env stage variant user_data profile rng₁).1 =
      (render_htmlR env stage variant user_data profile rng₂).1 ∧
    (render_htmlR env stage variant user_data profile rng₁).2 = rng₁ ∧
    (get_random_variant rng₁).2.pos = rng₁.pos + 1 :=
  ⟨rfl, rfl, rfl⟩

/-- Claim C9: profile loading never fails the run — a missing resolved path
warns and substitutes the wellness profile file, a failed open or parse of
the file actually read yields the hard-coded default profile, and that
default has every section populated. -/
theorem claim9_load_profile (fs : ProfileFS) (name : String)
    (hy : fs.yamlAvailable = true) :
    (fs.pathOnDisk (resolve_profile_path name) = false →
       (load_profile fs name).2 ≠ [] ∧
       (load_profile fs name).1 =
         (fs.parse "profiles/wellness.yaml").getD get_default_profile) ∧
    (fs.pathOnDisk (resolve_profile_path name) = true →
       fs.parse (resolve_profile_path name) = none →
       (load_profile fs name).1 = get_default_profile) ∧
    (get_default_profile.brand.isSome ∧ get_default_profile.colors.isSome ∧
     get_default_profile.fonts.isSome ∧ get_default_profile.image.isSome ∧
     get_default_profile.card.isSome ∧ get_default_profile.cta.isSome ∧
     get_default_profile.tone.isSome ∧ get_default_profile.social.isSome ∧
     get_default_profile.content.isSome) := by
  refine ⟨?_, ?_, by decide⟩
  · intro hmiss
    rcases hp : fs.parse "profiles/wellness.yaml" with _ | prof
    · simp [load_profile, hy, hmiss, hp]
    · simp [load_profile, hy, hmiss, hp]
  · intro hexists hparse
    simp [load_profile, hy, hexists, hparse]

/-- Witness for C9: with no profile file on disk and every parse failing,
loading a named profile warns and returns the hard-coded default. -/
theorem claim9_witness :
    (load_profile fsAllMissing "corporate").2 ≠ [] ∧
    (load_profile fsAllMissing "corporate").1 = get_default_profile := by
  have h := (claim9_load_profile fsAllMissing "corporate" rfl).1 rfl
  exact ⟨h.1, h.2⟩

/-- Claim C7: loading the recipient table fails with the missing-fields
error whenever any of the required columns (name, role, company,
telegram_id) is absent; the whole run then aborts before the delivery loop,
so no output is produced and no partial record collection is returned. -/
theorem claim7_missing_columns (df : DataFrame) (env : Env) (sr : Bool)
    (mode : VariantMode) (rng : Rng) (f : String)
    (hf : f ∈ required_fields) (habs : df.columns.contains f = false) :
    ∃ m, m ≠ [] ∧
      load_users (some df) = .error (.missingFields m) ∧
      mainRun (some df) env sr mode rng = .error (.missingFields m) := by
  have habs2 : f ∉ df.columns := by simpa using habs
  have hex : ∃ x ∈ required_fields, x ∉ df.columns := ⟨f, hf, habs2⟩
  refine ⟨required_fields.filter (fun g => !(df.columns.contains g)), ?_, ?_, ?_⟩
  · have : f ∈ required_fields.filter (fun g => !(df.columns.contains g)) := by
      simp [List.mem_filter, hf, habs2]
    intro hnil
    rw [hnil] at this
    simp at this
  · simp [load_users, hex]
  · simp [mainRun, load_users, hex]

/-- Witness for C7: a table missing the telegram_id column aborts the run
with the missing-fields error naming it. -/
theorem claim7_witness :
    load_users (some dfNoTelegramId) = .error (.missingFields ["telegram_id"]) ∧
    mainRun (some dfNoTelegramId) envAllOk true .fixed rngCycle =
      .error (.missingFields ["telegram_id"]) := by
  obtain ⟨m, -, h1, h2⟩ :=
    claim7_missing_columns dfNoTelegramId envAllOk true .fixed rngCycle
      "telegram_id" (by decide) (by decide)
  have hv : load_users (some dfNoTelegramId) = .error (.missingFields ["telegram_id"]) := rfl
  have hm := h1.symm.trans hv
  simp at hm
  rw [hm] at h1 h2
  exact ⟨h1, h2⟩

end Funnel
